import Mathlib

/-!
Verification development for the geoip2 client library (`geoip2.go`).

The library is a thin client for a geolocation-by-IP web service: `fetch`
builds an authenticated GET request, runs it through a pluggable transport
function, classifies the HTTP status, and decodes either a success body or an
error body from JSON.

The embedding below models:
  * JSON values and a JSON parser (the library delegates to Go's
    `encoding/json`, which is outside the repository; we model the decoding
    behaviour the code relies on with an executable parser over a practical
    JSON subset: null, booleans, integer numbers, strings with the common
    escapes, arrays and objects; `Decoder.Decode` reads one JSON value and
    ignores any trailing bytes, which the parser mirrors by returning the
    unconsumed remainder);
  * the `Api` client record with its `doFunc` transport, `userId` and
    `licenseKey` fields, and the constructors `New`, `WithClient`,
    `WithClientFunc` and `wrap`;
  * the `fetch` pipeline with its exact branch structure: transport failure
    propagation, the `[400, 600)` error-status window, the buffered
    error-body decode with the `"Error parsing error response as JSON: "`
    fallback, and the success-path decode wrapped as
    `"Error parsing response as JSON: "` on failure.
-/

set_option autoImplicit false
set_option maxRecDepth 4000

namespace Geoip2

/-- A JSON value.  Numbers are modelled as integers: the bodies the library
decodes on the error path are objects of strings and small integers, and the
success payload is treated by the library as an opaque pass-through document. -/
inductive Json where
  | null
  | bool (b : Bool)
  | num (n : Int)
  | str (s : String)
  | arr (elems : List Json)
  | obj (fields : List (String × Json))

/-- Skip JSON whitespace. -/
def skipWs : List Char → List Char
  | c :: cs => if c = ' ' ∨ c = '\n' ∨ c = '\t' ∨ c = '\r' then skipWs cs else c :: cs
  | [] => []

/-- Numeric value of a decimal digit, if the character is one. -/
def digitVal (c : Char) : Option Nat :=
  if '0' ≤ c ∧ c ≤ '9' then some (c.toNat - '0'.toNat) else none

/-- Consume a run of decimal digits, accumulating their value. -/
def parseNatAux : List Char → Nat → Nat × List Char
  | c :: cs, acc =>
    match digitVal c with
    | some d => parseNatAux cs (acc * 10 + d)
    | none => (acc, c :: cs)
  | [], acc => (acc, [])

/-- Parse the body of a JSON string literal (the opening quote already
consumed), handling the common escape sequences. -/
def parseStrAux : Nat → List Char → String → Option (String × List Char)
  | 0, _, _ => none
  | _ + 1, [], _ => none
  | fuel + 1, c :: cs, acc =>
    if c = '"' then some (acc, cs)
    else if c = '\\' then
      match cs with
      | '"' :: rest => parseStrAux fuel rest (acc.push '"')
      | '\\' :: rest => parseStrAux fuel rest (acc.push '\\')
      | '/' :: rest => parseStrAux fuel rest (acc.push '/')
      | 'n' :: rest => parseStrAux fuel rest (acc.push '\n')
      | 't' :: rest => parseStrAux fuel rest (acc.push '\t')
      | 'r' :: rest => parseStrAux fuel rest (acc.push '\r')
      | _ => none
    else parseStrAux fuel cs (acc.push c)

mutual

/-- Parse one JSON value, returning it with the unconsumed remainder. -/
def parseVal : Nat → List Char → Option (Json × List Char)
  | 0, _ => none
  | fuel + 1, cs =>
    match skipWs cs with
    | [] => none
    | c :: rest =>
      if c = 'n' then
        match rest with
        | 'u' :: 'l' :: 'l' :: r => some (Json.null, r)
        | _ => none
      else if c = 't' then
        match rest with
        | 'r' :: 'u' :: 'e' :: r => some (Json.bool true, r)
        | _ => none
      else if c = 'f' then
        match rest with
        | 'a' :: 'l' :: 's' :: 'e' :: r => some (Json.bool false, r)
        | _ => none
      else if c = '"' then
        match parseStrAux (rest.length + 1) rest "" with
        | some (s, r) => some (Json.str s, r)
        | none => none
      else if c = '-' then
        match rest with
        | d :: _ =>
          match digitVal d with
          | some _ =>
            match parseNatAux rest 0 with
            | (n, r) => some (Json.num (-(n : Int)), r)
          | none => none
        | [] => none
      else if (digitVal c).isSome then
        match parseNatAux (c :: rest) 0 with
        | (n, r) => some (Json.num (n : Int), r)
      else if c = '[' then
        match skipWs rest with
        | ']' :: r => some (Json.arr [], r)
        | cs2 =>
          match parseArrTail fuel cs2 with
          | some (xs, r) => some (Json.arr xs, r)
          | none => none
      else if c = '{' then
        match skipWs rest with
        | '}' :: r => some (Json.obj [], r)
        | cs2 =>
          match parseObjTail fuel cs2 with
          | some (fs, r) => some (Json.obj fs, r)
          | none => none
      else none

/-- Parse the elements of a JSON array after `[` (at least one element). -/
def parseArrTail : Nat → List Char → Option (List Json × List Char)
  | 0, _ => none
  | fuel + 1, cs =>
    match parseVal fuel cs with
    | none => none
    | some (v, r) =>
      match skipWs r with
      | ',' :: r2 =>
        match parseArrTail fuel r2 with
        | some (xs, r3) => some (v :: xs, r3)
        | none => none
      | ']' :: r2 => some ([v], r2)
      | _ => none

/-- Parse the members of a JSON object after `{` (at least one member). -/
def parseObjTail : Nat → List Char → Option (List (String × Json) × List Char)
  | 0, _ => none
  | fuel + 1, cs =>
    match skipWs cs with
    | '"' :: rest =>
      match parseStrAux (rest.length + 1) rest "" with
      | none => none
      | some (key, r) =>
        match skipWs r with
        | ':' :: r2 =>
          match parseVal fuel r2 with
          | none => none
          | some (v, r3) =>
            match skipWs r3 with
            | ',' :: r4 =>
              match parseObjTail fuel r4 with
              | some (fs, r5) => some ((key, v) :: fs, r5)
              | none => none
            | '}' :: r4 => some ([(key, v)], r4)
            | _ => none
        | _ => none
    | _ => none

end

/-- Decode the first JSON value of a body, mirroring
`json.NewDecoder(r).Decode`: one value is read, trailing bytes are ignored. -/
def parseJson (body : String) : Option Json :=
  match parseVal (2 * body.length + 2) body.data with
  | some (v, _) => some v
  | none => none

/-- Look up a field of a JSON object by name (first occurrence). -/
def lookupField : List (String × Json) → String → Option Json
  | [], _ => none
  | (k, v) :: fs, name => if k = name then some v else lookupField fs name

/-- The `Error` struct of the repository: the fields the code touches are
`HTTPStatus` (preset from the response status) and `Err` (the diagnostic
message, either decoded from the body or synthesized).  The struct declaration
itself lives outside `src/`; modelled from the spec: a ServiceError "carries
the HTTP status code and a descriptive error message". -/
structure Error where
  HTTPStatus : Nat
  Err : String
  deriving Repr, DecidableEq

/-- A Go `error` value as the library produces or propagates it: either the
repository's `Error` struct or some other error rendered by its message
(transport failures, `fmt.Errorf` results, read failures). -/
inductive GoError where
  | svc (e : Error)
  | str (s : String)
  deriving Repr, DecidableEq

/-- The text `fmt` produces for an error value with the `%v` verb (the
`Error()` method: the message). -/
def GoError.render : GoError → String
  | GoError.svc e => e.Err
  | GoError.str s => s

/-- The decoded success payload.  The `Response` struct is outside `src/`;
modelled from the spec: "treated as a pass-through JSON document holder". -/
structure Response where
  doc : Json

/-- The zero value `Response{}` of the Go struct: no document decoded (a JSON
`null` body decodes to exactly this value, as Go's decoder leaves the struct
untouched on `null`). -/
def Response.empty : Response := { doc := Json.null }

/-- A cancellation context: either the non-cancellable background context or
an opaque caller-supplied context.  A Go `nil` context is `Option.none` at the
call sites. -/
inductive Ctx where
  | background
  | cancellable (id : Nat)
  deriving Repr, DecidableEq

/-- An `http.Request` restricted to what the library sets: the method and URL
given to `http.NewRequest`, and the credentials stored by `SetBasicAuth`
(which `net/http` sends as a Basic `Authorization` header). -/
structure Request where
  method : String
  url : String
  basicAuthUser : String
  basicAuthPass : String
  deriving Repr, DecidableEq

/-- An `*http.Response` restricted to what the library reads: the status code
and the body stream, whose full read yields either the content or a read
error (`ioutil.ReadAll` can fail on the error path; on the success path a read
failure surfaces through the JSON decoder). -/
structure HttpResp where
  statusCode : Nat
  body : Except GoError String
  deriving Repr

/-- The transport function type: `func(context.Context, *http.Request)
(*http.Response, error)`, with the exactly-one-of-two Go convention rendered
as `Except`. -/
abbrev DoFunc := Ctx → Request → Except GoError HttpResp

/-- The client: transport function plus credentials (`type Api struct`). -/
structure Api where
  doFunc : DoFunc
  userId : String
  licenseKey : String

/-- An `*http.Client` restricted to what the library uses: its blocking `Do`
method. -/
structure HttpClient where
  Do : Request → Except GoError HttpResp

/-- `wrap` lifts a blocking do-function to a context-taking transport that
ignores the context (`func wrap`, lines 53–57). -/
def wrap (doFunc : Request → Except GoError HttpResp) : DoFunc :=
  fun _ctx req => doFunc req

/-- Modelled from the spec: `http.DefaultClient` performs real network
requests (`net/http`, outside this repository).  Only the fact that `New`
installs it through `wrap` matters here, so its behaviour is a fixed
transport-level failure. -/
def httpDefaultClient : HttpClient :=
  { Do := fun _ => Except.error (GoError.str "network unreachable") }

/-- The zero value of the `doFunc` field before `New` replaces it (a nil Go
function; never invoked, since `New` immediately overwrites it). -/
def nilDoFunc : DoFunc :=
  fun _ _ => Except.error (GoError.str "nil function value")

/-- `func WithClientFunc` (lines 45–51): a new `Api` with the given transport
and the base client's credentials. -/
def WithClientFunc (api : Api) (ctxFunc : DoFunc) : Api :=
  { doFunc := ctxFunc, userId := api.userId, licenseKey := api.licenseKey }

/-- `func WithClient` (lines 41–43). -/
def WithClient (api : Api) (client : HttpClient) : Api :=
  WithClientFunc api (wrap client.Do)

/-- `func New` (lines 33–39). -/
def New (userId licenseKey : String) : Api :=
  WithClient { doFunc := nilDoFunc, userId := userId, licenseKey := licenseKey }
    httpDefaultClient

/-- The request `fetch` builds (lines 72–79): a GET at the naive string
concatenation of endpoint and IP, carrying the client's credentials as Basic
auth.  The `http.NewRequest` failure path (line 73) is not modelled:
`url.Parse` accepts these concatenations, a malformed address simply becoming
a malformed path segment (spec §4.3). -/
def mkRequest (a : Api) (baseUrl ipAddress : String) : Request :=
  { method := "GET", url := baseUrl ++ ipAddress,
    basicAuthUser := a.userId, basicAuthPass := a.licenseKey }

/-- `ctx == nil` substitution (lines 82–84): a nil context becomes
`context.Background()`. -/
def resolveCtx : Option Ctx → Ctx
  | none => Ctx.background
  | some c => c

/-- Decoding the error-path body into `Error{HTTPStatus: resp.StatusCode}`
(lines 104–107).  The `Error` struct's JSON tags are outside `src/`; modelled
from the spec: the error schema is a JSON object with a "message" field
carrying the diagnostic text.  A non-object body fails to decode (Go cannot
unmarshal it into a struct); a "message" field of a non-string type is a type
mismatch; an absent "message" field leaves the zero value. -/
def decodeErrorBody (status : Nat) (body : String) : Option Error :=
  match parseJson body with
  | some (Json.obj fs) =>
    match lookupField fs "message" with
    | some (Json.str m) => some { HTTPStatus := status, Err := m }
    | none => some { HTTPStatus := status, Err := "" }
    | some _ => none
  | _ => none

/-- Modelled from the spec: the syntax-error text `encoding/json` reports for
an invalid success body is unspecified; only the wrapping context added by the
library (line 119) is fixed. -/
def jsonSyntaxErrMsg : String := "invalid JSON value"

/-- The post-transport part of `fetch` (lines 85–121): propagate a transport
failure verbatim; inside `[400, 600)` read the whole body, decode the error
schema, falling back to the synthesized message; otherwise stream-decode the
success schema, wrapping a decode failure. -/
def classify (result : Except GoError HttpResp) : Response × Option GoError :=
  match result with
  | Except.error e => (Response.empty, some e)
  | Except.ok resp =>
    if 400 ≤ resp.statusCode ∧ resp.statusCode < 600 then
      match resp.body with
      | Except.error e => (Response.empty, some e)
      | Except.ok respContent =>
        match decodeErrorBody resp.statusCode respContent with
        | some v => (Response.empty, some (GoError.svc v))
        | none =>
          (Response.empty, some (GoError.svc
            { HTTPStatus := resp.statusCode,
              Err := "Error parsing error response as JSON: " ++ respContent }))
    else
      match resp.body with
      | Except.error e =>
        (Response.empty,
          some (GoError.str ("Error parsing response as JSON: " ++ e.render)))
      | Except.ok respContent =>
        match parseJson respContent with
        | some j => ({ doc := j }, none)
        | none =>
          (Response.empty,
            some (GoError.str ("Error parsing response as JSON: " ++ jsonSyntaxErrMsg)))

/-- `func (a *Api) fetch` (lines 71–122): build the request, resolve the
context, invoke the transport, classify the outcome. -/
def Api.fetch (a : Api) (ctx : Option Ctx) (baseUrl ipAddress : String) :
    Response × Option GoError :=
  classify (a.doFunc (resolveCtx ctx) (mkRequest a baseUrl ipAddress))

/-- `func (a *Api) Country` (lines 59–61). -/
def Api.Country (a : Api) (ctx : Option Ctx) (ipAddress : String) :
    Response × Option GoError :=
  a.fetch ctx "https://geoip.maxmind.com/geoip/v2.1/country/" ipAddress

/-- `func (a *Api) City` (lines 63–65). -/
def Api.City (a : Api) (ctx : Option Ctx) (ipAddress : String) :
    Response × Option GoError :=
  a.fetch ctx "https://geoip.maxmind.com/geoip/v2.1/city/" ipAddress

/-- `func (a *Api) Insights` (lines 67–69). -/
def Api.Insights (a : Api) (ctx : Option Ctx) (ipAddress : String) :
    Response × Option GoError :=
  a.fetch ctx "https://geoip.maxmind.com/geoip/v2.1/insights/" ipAddress

/-- A client whose transport stub always returns the given status and body. -/
def stubRespApi (status : Nat) (body : String) : Api :=
  { doFunc := fun _ _ => Except.ok { statusCode := status, body := Except.ok body },
    userId := "42", licenseKey := "secret" }

/-- A client whose transport stub fails at the transport level. -/
def stubFailApi : Api :=
  { doFunc := fun _ _ => Except.error (GoError.str "connection refused"),
    userId := "42", licenseKey := "secret" }

/-- A client whose transport stub returns an error status with an unreadable
body stream. -/
def readFailApi : Api :=
  { doFunc := fun _ _ =>
      Except.ok { statusCode := 500, body := Except.error (GoError.str "read failed") },
    userId := "42", licenseKey := "secret" }

/-- A client whose transport stub returns status 200 with body `null` (a valid
JSON document that decodes to the zero `Response`). -/
def nullBodyApi : Api := stubRespApi 200 "null"

/-- A client whose transport stub returns status 500 with the non-JSON body
`internal failure`. -/
def plainBody500Api : Api := stubRespApi 500 "internal failure"

/-- A client whose transport stub returns status 200 with a body that is not
valid JSON. -/
def badJson200Api : Api := stubRespApi 200 "not json"

/-- A client whose transport stub returns status 404 with the JSON body
`{"status":404,"message":"IP not found"}`. -/
def notFound404Api : Api :=
  stubRespApi 404 "\x7b\"status\":404,\"message\":\"IP not found\"\x7d"

/-- A client whose transport stub returns status 200 with a valid JSON success
body. -/
def okBodyApi : Api :=
  stubRespApi 200 "\x7b\"country\":\x7b\"iso_code\":\"US\"\x7d\x7d"

/-- On every branch of the pipeline, the outcome either has no error or has
the empty `Response`. -/
theorem classify_shape (r : Except GoError HttpResp) :
    (classify r).2 = none ∨ (classify r).1 = Response.empty := by
  unfold classify
  rcases r with e | resp
  · exact Or.inr rfl
  · dsimp only
    split
    · split
      · exact Or.inr rfl
      · split
        · exact Or.inr rfl
        · exact Or.inr rfl
    · split
      · exact Or.inr rfl
      · split
        · exact Or.inl rfl
        · exact Or.inr rfl

/-- Claim C1 (amended): whenever a lookup returns a non-nil error, the
returned `Response` is the empty zero value — the two are never both
populated.  (The other half of the original claim fails: a success-status body
that decodes to the zero `Response`, such as JSON `null`, yields an empty
`Response` together with a nil error; see the counterexample.) -/
theorem fetch_error_implies_empty_response (a : Api) (octx : Option Ctx)
    (baseUrl ipAddress : String) (e : GoError)
    (h : (a.fetch octx baseUrl ipAddress).2 = some e) :
    (a.fetch octx baseUrl ipAddress).1 = Response.empty := by
  unfold Api.fetch at h ⊢
  rcases classify_shape (a.doFunc (resolveCtx octx) (mkRequest a baseUrl ipAddress))
    with h0 | h0
  · rw [h0] at h
    exact absurd h (by simp)
  · exact h0

/-- Claim C1 witness: on a transport stub whose error-path body is unreadable,
the error is non-nil and the `Response` is empty. -/
theorem fetch_error_implies_empty_response_witness :
    (Api.fetch readFailApi none "u" "1.2.3.4").2 = some (GoError.str "read failed") ∧
      (Api.fetch readFailApi none "u" "1.2.3.4").1 = Response.empty :=
  ⟨rfl, fetch_error_implies_empty_response readFailApi none "u" "1.2.3.4"
    (GoError.str "read failed") rfl⟩

/-- Claim C1 counterexample: a transport stub returning status 200 with body
`null` makes `fetch` return the empty `Response` together with a nil error —
"never both empty" fails on the code. -/
theorem fetch_both_empty_counterexample :
    Api.fetch nullBodyApi none "https://geoip.maxmind.com/geoip/v2.1/city/" "1.2.3.4" =
      (Response.empty, none) := rfl

/-- Claim C2 (amended): when the status is in `[400, 600)` and the body fails
to decode as the error schema, the returned `Error` carries the synthesized
message `"Error parsing error response as JSON: "` concatenated with the raw
body text (not the literal `"failed to parse error body as JSON"` of the
original claim), and its `HTTPStatus` equals the observed status. -/
theorem fetch_error_body_fallback (a : Api) (octx : Option Ctx)
    (baseUrl ipAddress : String) (st : Nat) (body : String)
    (ht : a.doFunc (resolveCtx octx) (mkRequest a baseUrl ipAddress) =
      Except.ok { statusCode := st, body := Except.ok body })
    (h4 : 400 ≤ st) (h6 : st < 600)
    (hd : decodeErrorBody st body = none) :
    a.fetch octx baseUrl ipAddress =
      (Response.empty, some (GoError.svc
        { HTTPStatus := st,
          Err := "Error parsing error response as JSON: " ++ body })) := by
  unfold Api.fetch
  rw [ht]
  unfold classify
  dsimp only
  rw [if_pos ⟨h4, h6⟩, hd]

/-- Claim C2 witness: status 500 with body `internal failure`. -/
theorem fetch_error_body_fallback_witness :
    Api.fetch plainBody500Api none "u" "1.2.3.4" =
      (Response.empty, some (GoError.svc
        { HTTPStatus := 500,
          Err := "Error parsing error response as JSON: " ++ "internal failure" })) :=
  fetch_error_body_fallback plainBody500Api none "u" "1.2.3.4" 500 "internal failure"
    rfl (by decide) (by decide) rfl

/-- Claim C2 counterexample: for status 500 with body `internal failure`, the
actual synthesized message is `"Error parsing error response as JSON:
internal failure"`, which is not the claimed concatenation of `"failed to
parse error body as JSON"` with the raw body (the claim's weaker in-particular
part — a parse-failure indicator, the literal body text, and status 500 —
does hold, as the first conjunct shows). -/
theorem fetch_error_body_fallback_counterexample :
    (Api.fetch plainBody500Api none "u" "1.2.3.4").2 =
      some (GoError.svc
        { HTTPStatus := 500,
          Err := "Error parsing error response as JSON: internal failure" }) ∧
    "Error parsing error response as JSON: internal failure" ≠
      "failed to parse error body as JSON" ++ "internal failure" :=
  ⟨rfl, by decide⟩

/-- Claim C3 (amended): when the status is outside `[400, 600)` and the body
is not valid JSON, `fetch` returns the empty `Response` together with a
non-nil error wrapping the decode failure with the context `"Error parsing
response as JSON: "` (not the `"failed to parse response as JSON"` of the
original claim). -/
theorem fetch_success_decode_failure (a : Api) (octx : Option Ctx)
    (baseUrl ipAddress : String) (st : Nat) (body : String)
    (ht : a.doFunc (resolveCtx octx) (mkRequest a baseUrl ipAddress) =
      Except.ok { statusCode := st, body := Except.ok body })
    (hs : ¬(400 ≤ st ∧ st < 600))
    (hp : parseJson body = none) :
    a.fetch octx baseUrl ipAddress =
      (Response.empty,
        some (GoError.str ("Error parsing response as JSON: " ++ jsonSyntaxErrMsg))) := by
  unfold Api.fetch
  rw [ht]
  unfold classify
  dsimp only
  rw [if_neg hs, hp]

/-- Claim C3 witness: status 200 with the invalid body `not json`. -/
theorem fetch_success_decode_failure_witness :
    Api.fetch badJson200Api none "u" "1.2.3.4" =
      (Response.empty,
        some (GoError.str ("Error parsing response as JSON: " ++ jsonSyntaxErrMsg))) :=
  fetch_success_decode_failure badJson200Api none "u" "1.2.3.4" 200 "not json"
    rfl (by decide) rfl

/-- Claim C3 counterexample: the wrapping context the code adds is `"Error
parsing response as JSON: "`; the message does not start with the claimed
`"failed to parse response as JSON"` (the rest of the claim — a non-nil
decode-failure error and an empty `Response` — holds). -/
theorem fetch_success_decode_failure_counterexample :
    (Api.fetch badJson200Api none "u" "1.2.3.4").1 = Response.empty ∧
    (Api.fetch badJson200Api none "u" "1.2.3.4").2 =
      some (GoError.str ("Error parsing response as JSON: " ++ jsonSyntaxErrMsg)) ∧
    "failed to parse response as JSON".data.isPrefixOf
      ("Error parsing response as JSON: " ++ jsonSyntaxErrMsg).data = false :=
  ⟨rfl, rfl, by decide⟩

/-- Claim C4: when the status is in `[400, 600)` and the body decodes as the
error schema, `fetch` returns the empty `Response` and the decoded `Error`
(whose `HTTPStatus` was preset from the observed status). -/
theorem fetch_error_schema_decoded (a : Api) (octx : Option Ctx)
    (baseUrl ipAddress : String) (st : Nat) (body : String) (v : Error)
    (ht : a.doFunc (resolveCtx octx) (mkRequest a baseUrl ipAddress) =
      Except.ok { statusCode := st, body := Except.ok body })
    (h4 : 400 ≤ st) (h6 : st < 600)
    (hd : decodeErrorBody st body = some v) :
    a.fetch octx baseUrl ipAddress = (Response.empty, some (GoError.svc v)) := by
  unfold Api.fetch
  rw [ht]
  unfold classify
  dsimp only
  rw [if_pos ⟨h4, h6⟩, hd]

/-- Claim C4 witness: status 404 with body
`{"status":404,"message":"IP not found"}` yields the error with
`HTTPStatus = 404` and message `"IP not found"`. -/
theorem fetch_error_schema_decoded_witness :
    Api.fetch notFound404Api none "u" "1.2.3.4" =
      (Response.empty,
        some (GoError.svc { HTTPStatus := 404, Err := "IP not found" })) :=
  fetch_error_schema_decoded notFound404Api none "u" "1.2.3.4" 404
    "\x7b\"status\":404,\"message\":\"IP not found\"\x7d"
    { HTTPStatus := 404, Err := "IP not found" } rfl (by decide) (by decide) rfl

/-- Claim C5: a transport-level failure is propagated verbatim as the error,
together with the empty `Response`. -/
theorem fetch_transport_failure_verbatim (a : Api) (octx : Option Ctx)
    (baseUrl ipAddress : String) (e : GoError)
    (ht : a.doFunc (resolveCtx octx) (mkRequest a baseUrl ipAddress) = Except.error e) :
    a.fetch octx baseUrl ipAddress = (Response.empty, some e) := by
  unfold Api.fetch
  rw [ht]
  rfl

/-- Claim C5 witness: a stub that fails with `connection refused` has that
very error returned, unmodified. -/
theorem fetch_transport_failure_verbatim_witness :
    Api.fetch stubFailApi none "u" "1.2.3.4" =
      (Response.empty, some (GoError.str "connection refused")) :=
  fetch_transport_failure_verbatim stubFailApi none "u" "1.2.3.4"
    (GoError.str "connection refused") rfl

/-- Claim C6: `wrap f` returns exactly `f req` and is independent of the
supplied context — two invocations differing only in the context agree — and
`New` and `WithClient` install exactly such a wrapped transport. -/
theorem wrap_ignores_context (f : Request → Except GoError HttpResp)
    (c₁ c₂ : Ctx) (req : Request) (u k : String) (a : Api) (cl : HttpClient) :
    wrap f c₁ req = f req ∧
    wrap f c₁ req = wrap f c₂ req ∧
    (New u k).doFunc = wrap httpDefaultClient.Do ∧
    (WithClient a cl).doFunc = wrap cl.Do :=
  ⟨rfl, rfl, rfl, rfl⟩

/-- Claim C7: a success-class status whose body is valid JSON yields the
decoded document with a nil error; `Country`, `City` and `Insights` are
exactly `fetch` at their fixed endpoints. -/
theorem fetch_success_decoded (a : Api) (octx : Option Ctx)
    (baseUrl ipAddress : String) (st : Nat) (body : String) (j : Json)
    (ht : a.doFunc (resolveCtx octx) (mkRequest a baseUrl ipAddress) =
      Except.ok { statusCode := st, body := Except.ok body })
    (hs : ¬(400 ≤ st ∧ st < 600))
    (hp : parseJson body = some j) :
    a.fetch octx baseUrl ipAddress = ({ doc := j }, none) ∧
    Api.Country a octx ipAddress =
      a.fetch octx "https://geoip.maxmind.com/geoip/v2.1/country/" ipAddress ∧
    Api.City a octx ipAddress =
      a.fetch octx "https://geoip.maxmind.com/geoip/v2.1/city/" ipAddress ∧
    Api.Insights a octx ipAddress =
      a.fetch octx "https://geoip.maxmind.com/geoip/v2.1/insights/" ipAddress := by
  refine ⟨?_, rfl, rfl, rfl⟩
  unfold Api.fetch
  rw [ht]
  unfold classify
  dsimp only
  rw [if_neg hs, hp]

/-- Claim C7 witness: status 200 with the body
`{"country":{"iso_code":"US"}}` decodes to exactly that document. -/
theorem fetch_success_decoded_witness :
    Api.fetch okBodyApi none "u" "1.2.3.4" =
      ({ doc := Json.obj [("country", Json.obj [("iso_code", Json.str "US")])] },
        none) :=
  (fetch_success_decoded okBodyApi none "u" "1.2.3.4" 200
    "\x7b\"country\":\x7b\"iso_code\":\"US\"\x7d\x7d"
    (Json.obj [("country", Json.obj [("iso_code", Json.str "US")])])
    rfl (by decide) rfl).1

/-- Claim C8: the request `fetch` hands to the transport is a GET at the
naive concatenation of the endpoint and the IP string, carrying the client's
credentials as Basic auth; for `City` the endpoint is
`https://geoip.maxmind.com/geoip/v2.1/city/`. -/
theorem fetch_request_construction (a : Api) (octx : Option Ctx)
    (baseUrl ipAddress : String) :
    mkRequest a baseUrl ipAddress =
      { method := "GET", url := baseUrl ++ ipAddress,
        basicAuthUser := a.userId, basicAuthPass := a.licenseKey } ∧
    Api.City a octx ipAddress =
      classify (a.doFunc (resolveCtx octx)
        (mkRequest a "https://geoip.maxmind.com/geoip/v2.1/city/" ipAddress)) ∧
    (mkRequest a "https://geoip.maxmind.com/geoip/v2.1/city/" ipAddress).url =
      "https://geoip.maxmind.com/geoip/v2.1/city/" ++ ipAddress :=
  ⟨rfl, rfl, rfl⟩

/-- Claim C9: transport substitution builds a fresh client with the base's
credentials and the new transport; the base client's fields are untouched (the
embedding is pure, so the last conjunct states that the base still drives its
own `doFunc` through `fetch` afterwards). -/
theorem client_derivation_frame (a : Api) (f : DoFunc) (cl : HttpClient) :
    (WithClientFunc a f).userId = a.userId ∧
    (WithClientFunc a f).licenseKey = a.licenseKey ∧
    (WithClientFunc a f).doFunc = f ∧
    (WithClient a cl).userId = a.userId ∧
    (WithClient a cl).licenseKey = a.licenseKey ∧
    (WithClient a cl).doFunc = wrap cl.Do ∧
    ∀ octx baseUrl ipAddress,
      Api.fetch a octx baseUrl ipAddress =
        classify (a.doFunc (resolveCtx octx) (mkRequest a baseUrl ipAddress)) :=
  ⟨rfl, rfl, rfl, rfl, rfl, rfl, fun _ _ _ => rfl⟩

/-- Claim C10: a nil caller context is replaced by the background context
before the transport is invoked, so the transport always receives a valid
context value. -/
theorem fetch_nil_context_background (a : Api) (baseUrl ipAddress : String)
    (c : Ctx) :
    Api.fetch a none baseUrl ipAddress =
      classify (a.doFunc Ctx.background (mkRequest a baseUrl ipAddress)) ∧
    resolveCtx none = Ctx.background ∧
    resolveCtx (some c) = c :=
  ⟨rfl, rfl, rfl⟩

end Geoip2
